import Mathlib

/-!
Verification of the frame-header and TOC decoding layer of `jxl-rs`
(`src/jxl/src/headers/frame_header.rs`).

The bit reader, the `u2S` selector coder and the conditional-record decode
engine (the `UnconditionalCoder` derive macro) are not part of the given
sources; they are modelled from the specification.  The concrete record
layouts (field order, coders, conditions, defaults) and the derived
computations `num_toc_entries` / `check` are translated from the source.

Bitstreams are lists of booleans read LSB-first; machine integers are `Nat`
(or `Int` for the signed crop offsets) with an explicit `% 2 ^ 32` where a
`u32` multiplication or addition can overflow; `f32` fields are carried as
exact rationals.  Fallible decoding returns `Except Error`.
-/

/-- Error kind, from `src/jxl/src/error.rs` callers visible in the source:
truncation, invalid tag, invalid extra-channel upsampling, excessive
downsample count, non-finite float. -/
inductive Error where
  | Truncation
  | InvalidTag
  | FloatNaNOrInf
  | InvalidEcUpsampling (upsampling : Nat) (dim_shift : Nat) (ec_upsampling : Nat)
  | NumPassesTooLarge (num_ds : Nat) (num_passes : Nat)
deriving DecidableEq, Repr

/-- Decidable equality of decode results, for evaluating the model on
concrete bitstreams. -/
instance {e a : Type} [DecidableEq e] [DecidableEq a] : DecidableEq (Except e a) := fun x y =>
  match x, y with
  | .ok u, .ok v =>
    match decEq u v with
    | isTrue h => isTrue (by rw [h])
    | isFalse h => isFalse (by intro hh; cases hh; exact h rfl)
  | .error u, .error v =>
    match decEq u v with
    | isTrue h => isTrue (by rw [h])
    | isFalse h => isFalse (by intro hh; cases hh; exact h rfl)
  | .ok _, .error _ => isFalse (by intro hh; cases hh)
  | .error _, .ok _ => isFalse (by intro hh; cases hh)

/-- `FrameType`, frame_header.rs lines 17-23. -/
inductive FrameType where
  | RegularFrame
  | LFFrame
  | ReferenceOnly
  | SkipProgressive
deriving DecidableEq, Repr

/-- `FromPrimitive` mapping for `FrameType`: codes 0..3, others rejected. -/
def FrameType.from_u32 : Nat → Option FrameType
  | 0 => some .RegularFrame
  | 1 => some .LFFrame
  | 2 => some .ReferenceOnly
  | 3 => some .SkipProgressive
  | _ => none

/-- `Encoding`, frame_header.rs lines 25-29. -/
inductive Encoding where
  | VarDCT
  | Modular
deriving DecidableEq, Repr

/-- `BlendingMode`, frame_header.rs lines 72-79. -/
inductive BlendingMode where
  | Replace
  | Add
  | Blend
  | AlphaWeightedAdd
  | Mul
deriving DecidableEq, Repr

/-- `FromPrimitive` mapping for `BlendingMode`: codes 0..4, others rejected. -/
def BlendingMode.from_u32 : Nat → Option BlendingMode
  | 0 => some .Replace
  | 1 => some .Add
  | 2 => some .Blend
  | 3 => some .AlphaWeightedAdd
  | 4 => some .Mul
  | _ => none

/-- Modelled from the spec: the Bit Cursor reads bits LSB-first from a byte
buffer; this is the value of the `n` bits of `s` starting at position `p`
(positions past the end contribute 0; `read_bits` itself rejects them). -/
def bits_val (s : List Bool) (p : Nat) : Nat → Nat
  | 0 => 0
  | n + 1 => (if s.getD p false then 1 else 0) + 2 * bits_val s (p + 1) n

/-- Modelled from the spec: `read_bits(n)` returns the next `n` bits as an
unsigned integer and the advanced cursor, or a truncation error when fewer
than `n` bits remain. -/
def read_bits (s : List Bool) (p n : Nat) : Except Error (Nat × Nat) :=
  if p + n ≤ s.length then .ok (bits_val s p n, p + n) else .error .Truncation

/-- Modelled from the spec: a boolean field is a single raw bit. -/
def read_bool (s : List Bool) (p : Nat) : Except Error (Bool × Nat) := do
  let r ← read_bits s p 1
  pure (r.1 == 1, r.2)

/-- Modelled from the spec: cursor position after aligning to the next byte
boundary. -/
def align8 (p : Nat) : Nat := ((p + 7) / 8) * 8

/-- One alternative of a four-alternative selector coding: either a fixed
constant or "(read `n` raw bits) + constant offset". -/
inductive U2S where
  | Val (v : Nat)
  | BitsOffset (n : Nat) (off : Nat)
deriving DecidableEq, Repr

/-- The alternative selected by a 2-bit selector value. -/
def u2s_alt (a0 a1 a2 a3 : U2S) : Nat → U2S
  | 0 => a0
  | 1 => a1
  | 2 => a2
  | _ => a3

/-- Modelled from the spec: the `u2S` selector-coded integer.  Read a 2-bit
selector `s`; resolve to alternative `s`; a constant alternative yields the
constant with no further reads, a raw-bit alternative reads its declared
width and adds its offset. -/
def read_u2s (a0 a1 a2 a3 : U2S) (s : List Bool) (p : Nat) : Except Error (Nat × Nat) := do
  let sel ← read_bits s p 2
  match u2s_alt a0 a1 a2 a3 sel.1 with
  | .Val v => pure (v, sel.2)
  | .BitsOffset n off => do
    let r ← read_bits s sel.2 n
    pure (off + r.1, r.2)

/-- Modelled from the spec: decode `n` elements of a sequence field with the
per-element coder `rd`. -/
def read_seq {α : Type} (rd : List Bool → Nat → Except Error (α × Nat)) (s : List Bool) :
    Nat → Nat → Except Error (List α × Nat)
  | 0, p => pure ([], p)
  | n + 1, p => do
    let r ← rd s p
    let rest ← read_seq rd s n r.2
    pure (r.1 :: rest.1, rest.2)

/-- A conditional field: decode with `t` when the presence condition `c`
holds, otherwise take the default result `e` (consuming nothing). -/
def read_if {α : Type} (c : Prop) [Decidable c] (t e : Except Error (α × Nat)) :
    Except Error (α × Nat) :=
  if c then t else e

/-- Modelled from the spec: a tag enumeration is a selector-coded integer
mapped to a closed tag set; a code with no variant is a decode failure
(`InvalidTag`), never a default.  The alternatives are the format's standard
enum coding. -/
def read_enum {τ : Type} (of_code : Nat → Option τ) (s : List Bool) (p : Nat) :
    Except Error (τ × Nat) := do
  let v ← read_u2s (.Val 0) (.Val 1) (.BitsOffset 4 2) (.BitsOffset 6 18) s p
  match of_code v.1 with
  | some t => pure (t, v.2)
  | none => .error .InvalidTag

/-- Modelled from the spec: the 64-bit feature-flag mask uses a
variable-length selector coding biased toward small values. -/
def read_u64 (s : List Bool) (p : Nat) : Except Error (Nat × Nat) :=
  read_u2s (.Val 0) (.BitsOffset 4 1) (.BitsOffset 8 17) (.BitsOffset 32 273) s p

/-- Modelled from the spec: signed crop offsets are selector-coded unsigned
integers unpacked so that even codes are nonnegative and odd codes negative. -/
def unpack_signed (v : Nat) : Int :=
  if v % 2 = 0 then ((v / 2 : Nat) : Int) else -((v / 2 : Nat) : Int) - 1

/-- Modelled from the spec: a name string is a selector-coded length followed
by that many bytes. -/
def read_name (s : List Bool) (p : Nat) : Except Error (List Nat × Nat) := do
  let len ← read_u2s (.Val 0) (.BitsOffset 4 0) (.BitsOffset 5 16) (.BitsOffset 10 48) s p
  read_seq (fun s p => read_bits s p 8) s len.1 len.2

/-- Modelled from the spec: the forward-compatibility extension block; the
source-visible records always leave it at its default, so it is carried as the
selector-coded extension mask. -/
def read_extensions (s : List Bool) (p : Nat) : Except Error (Nat × Nat) :=
  read_u2s (.Val 0) (.BitsOffset 4 1) (.BitsOffset 8 17) (.BitsOffset 16 273) s p

/-- Modelled from the spec: `f32` fields are decoded from 16 raw bits as a
half-precision float (rejecting NaN/infinity) and carried as an exact
rational. -/
def read_f16 (s : List Bool) (p : Nat) : Except Error (Rat × Nat) := do
  let r ← read_bits s p 16
  let mant := r.1 % 1024
  let expo := r.1 / 1024 % 32
  let sgn := r.1 / 32768
  if expo = 31 then .error .FloatNaNOrInf
  else
    let mag : Rat :=
      if expo = 0 then (mant : Rat) / 16777216
      else ((1024 + mant : Nat) : Rat) / 1024 * (2 : Rat) ^ ((expo : Int) - 15)
    pure ((if sgn = 1 then -mag else mag), r.2)

/-- `Passes`, frame_header.rs lines 42-70. -/
structure Passes where
  num_passes : Nat
  num_ds : Nat
  shift : List Nat
  downsample : List Nat
  last_pass : List Nat
deriving DecidableEq, Repr

/-- Declared defaults of `Passes` (`default`/`default_element` attributes at
their nominal sizes: `num_passes = 1` makes every sequence empty). -/
def Passes.default_value : Passes :=
  { num_passes := 1, num_ds := 0, shift := [], downsample := [], last_pass := [] }

/-- Decode of `Passes` (field order, coders and conditions from the source;
engine semantics modelled from the spec). -/
def Passes.read (s : List Bool) (p : Nat) : Except Error (Passes × Nat) := do
  let np ← read_u2s (.Val 1) (.Val 2) (.Val 3) (.BitsOffset 3 4) s p
  let nds ← read_if (np.1 ≠ 1)
    (read_u2s (.Val 0) (.Val 1) (.Val 2) (.BitsOffset 1 3) s np.2)
    (pure (0, np.2))
  let sh ← read_if (np.1 ≠ 1)
    (read_seq (fun s p => read_bits s p 2) s (np.1 - 1) nds.2)
    (pure (List.replicate (np.1 - 1) 0, nds.2))
  let ds ← read_if (np.1 ≠ 1)
    (read_seq (read_u2s (.Val 1) (.Val 2) (.Val 4) (.Val 8)) s nds.1 sh.2)
    (pure (List.replicate nds.1 1, sh.2))
  let lp ← read_if (np.1 ≠ 1)
    (read_seq (read_u2s (.Val 0) (.Val 1) (.Val 2) (.BitsOffset 3 0)) s nds.1 ds.2)
    (pure (List.replicate nds.1 0, ds.2))
  pure ({ num_passes := np.1, num_ds := nds.1, shift := sh.1,
          downsample := ds.1, last_pass := lp.1 }, lp.2)

/-- `full_frame` derived boolean, frame_header.rs lines 115-120 and 384-386:
no crop, or the crop rectangle at `(x0, y0)` with `width`/`height` covers the
whole image. -/
def full_frame (have_crop : Bool) (x0 y0 : Int) (width height img_width img_height : Nat) : Bool :=
  !have_crop || (x0 == 0 && y0 == 0 &&
    decide ((width : Int) + x0 ≥ (img_width : Int)) &&
    decide ((height : Int) + y0 ≥ (img_height : Int)))

/-- `BlendingInfoNonserialized`, frame_header.rs lines 81-90. -/
structure BlendingInfoNonserialized where
  num_extra_channels : Nat
  have_crop : Bool
  x0 : Int
  y0 : Int
  width : Nat
  height : Nat
  img_width : Nat
  img_height : Nat
deriving DecidableEq, Repr

/-- `BlendingInfo`, frame_header.rs lines 92-122. -/
structure BlendingInfo where
  mode : BlendingMode
  alpha_channel : Nat
  clamp : Bool
  source : Nat
deriving DecidableEq, Repr

/-- Declared defaults of `BlendingInfo`. -/
def BlendingInfo.default_value : BlendingInfo :=
  { mode := .Replace, alpha_channel := 0, clamp := false, source := 0 }

/-- Decode of the `mode` tag field of `BlendingInfo` with its declared coder
`u2S(0, 1, 2, Bits(2) + 3)`; a code outside 0..4 is an `InvalidTag` failure. -/
def BlendingMode.read (s : List Bool) (p : Nat) : Except Error (BlendingMode × Nat) := do
  let v ← read_u2s (.Val 0) (.Val 1) (.Val 2) (.BitsOffset 2 3) s p
  match BlendingMode.from_u32 v.1 with
  | some m => pure (m, v.2)
  | none => .error .InvalidTag

/-- Decode of `BlendingInfo` (field order, coders and conditions from the
source; engine semantics modelled from the spec). -/
def BlendingInfo.read (ns : BlendingInfoNonserialized) (s : List Bool) (p : Nat) :
    Except Error (BlendingInfo × Nat) := do
  let m ← BlendingMode.read s p
  let ac ← read_if (ns.num_extra_channels > 0 ∧ (m.1 = .Blend ∨ m.1 = .AlphaWeightedAdd))
    (read_u2s (.Val 0) (.Val 1) (.Val 2) (.BitsOffset 3 3) s m.2)
    (pure (0, m.2))
  let cl ← read_if (ns.num_extra_channels > 0 ∧
      (m.1 = .Blend ∨ m.1 = .AlphaWeightedAdd ∨ m.1 = .Mul))
    (read_bool s ac.2)
    (pure (false, ac.2))
  let src ← read_if (m.1 ≠ .Replace ∧
      !(full_frame ns.have_crop ns.x0 ns.y0 ns.width ns.height ns.img_width ns.img_height))
    (read_u2s (.Val 0) (.Val 1) (.Val 2) (.Val 3) s cl.2)
    (pure (0, cl.2))
  pure ({ mode := m.1, alpha_channel := ac.1, clamp := cl.1, source := src.1 }, src.2)

/-- `RestorationFilter`, frame_header.rs lines 128-221 (`f32` fields as exact
rationals). -/
structure RestorationFilter where
  all_default : Bool
  gab : Bool
  gab_custom : Bool
  gab_x_weight1 : Rat
  gab_x_weight2 : Rat
  gab_y_weight1 : Rat
  gab_y_weight2 : Rat
  gab_b_weight1 : Rat
  gab_b_weight2 : Rat
  epf_iters : Nat
  epf_sharp_custom : Bool
  epf_sharp_lut : List Rat
  epf_weight_custom : Bool
  epf_channel_scale : List Rat
  epf_pass1_zeroflush : Rat
  epf_pass2_zeroflush : Rat
  epf_sigma_custom : Bool
  epf_quant_mul : Rat
  epf_pass0_sigma_scale : Rat
  epf_pass2_sigma_scale : Rat
  epf_border_sad_mul : Rat
  epf_sigma_for_modular : Rat
  extensions : Nat
deriving DecidableEq, Repr

/-- Declared defaults of `RestorationFilter` (the `#[default(...)]`
attributes). -/
def RestorationFilter.default_value : RestorationFilter :=
  { all_default := true, gab := true, gab_custom := false,
    gab_x_weight1 := 0.115169525, gab_x_weight2 := 0.061248592,
    gab_y_weight1 := 0.115169525, gab_y_weight2 := 0.061248592,
    gab_b_weight1 := 0.115169525, gab_b_weight2 := 0.061248592,
    epf_iters := 2, epf_sharp_custom := false,
    epf_sharp_lut := [0, 1/7, 2/7, 3/7, 4/7, 5/7, 6/7, 1],
    epf_weight_custom := false, epf_channel_scale := [40.0, 5.0, 3.5],
    epf_pass1_zeroflush := 0.45, epf_pass2_zeroflush := 0.6,
    epf_sigma_custom := false, epf_quant_mul := 0.46,
    epf_pass0_sigma_scale := 0.9, epf_pass2_sigma_scale := 6.5,
    epf_border_sad_mul := 2/3, epf_sigma_for_modular := 1.0,
    extensions := 0 }

/-- Decode of `RestorationFilter` (field order, coders, conditions and the
`all_default` shortcut from the source; engine semantics modelled from the
spec). -/
def RestorationFilter.read (enc : Encoding) (s : List Bool) (p : Nat) :
    Except Error (RestorationFilter × Nat) := do
  let ad ← read_bool s p
  if ad.1 then
    pure (RestorationFilter.default_value, ad.2)
  else
    let gab ← read_bool s ad.2
    let gabc ← read_if (gab.1 = true) (read_bool s gab.2) (pure (false, gab.2))
    let gx1 ← read_if (gabc.1 = true) (read_f16 s gabc.2) (pure ((0.115169525 : Rat), gabc.2))
    let gx2 ← read_if (gabc.1 = true) (read_f16 s gx1.2) (pure ((0.061248592 : Rat), gx1.2))
    let gy1 ← read_if (gabc.1 = true) (read_f16 s gx2.2) (pure ((0.115169525 : Rat), gx2.2))
    let gy2 ← read_if (gabc.1 = true) (read_f16 s gy1.2) (pure ((0.061248592 : Rat), gy1.2))
    let gb1 ← read_if (gabc.1 = true) (read_f16 s gy2.2) (pure ((0.115169525 : Rat), gy2.2))
    let gb2 ← read_if (gabc.1 = true) (read_f16 s gb1.2) (pure ((0.061248592 : Rat), gb1.2))
    let iters ← read_bits s gb2.2 2
    let sharpc ← read_if (iters.1 > 0 ∧ enc = .VarDCT) (read_bool s iters.2)
      (pure (false, iters.2))
    let lut ← read_if (sharpc.1 = true) (read_seq read_f16 s 8 sharpc.2)
      (pure (([0, 1/7, 2/7, 3/7, 4/7, 5/7, 6/7, 1] : List Rat), sharpc.2))
    let wc ← read_if (iters.1 > 0) (read_bool s lut.2) (pure (false, lut.2))
    let cs ← read_if (wc.1 = true) (read_seq read_f16 s 3 wc.2)
      (pure (([40.0, 5.0, 3.5] : List Rat), wc.2))
    let zf1 ← read_if (wc.1 = true) (read_f16 s cs.2) (pure ((0.45 : Rat), cs.2))
    let zf2 ← read_if (wc.1 = true) (read_f16 s zf1.2) (pure ((0.6 : Rat), zf1.2))
    let sc ← read_if (iters.1 > 0) (read_bool s zf2.2) (pure (false, zf2.2))
    let qm ← read_if (sc.1 = true ∧ enc = .VarDCT) (read_f16 s sc.2) (pure ((0.46 : Rat), sc.2))
    let ss0 ← read_if (sc.1 = true) (read_f16 s qm.2) (pure ((0.9 : Rat), qm.2))
    let ss2 ← read_if (sc.1 = true) (read_f16 s ss0.2) (pure ((6.5 : Rat), ss0.2))
    let bsm ← read_if (sc.1 = true) (read_f16 s ss2.2) (pure ((2/3 : Rat), ss2.2))
    let sfm ← read_if (iters.1 > 0 ∧ enc = .Modular) (read_f16 s bsm.2)
      (pure ((1.0 : Rat), bsm.2))
    let ext ← read_extensions s sfm.2
    pure ({ all_default := ad.1, gab := gab.1, gab_custom := gabc.1,
            gab_x_weight1 := gx1.1, gab_x_weight2 := gx2.1,
            gab_y_weight1 := gy1.1, gab_y_weight2 := gy2.1,
            gab_b_weight1 := gb1.1, gab_b_weight2 := gb2.1,
            epf_iters := iters.1, epf_sharp_custom := sharpc.1,
            epf_sharp_lut := lut.1, epf_weight_custom := wc.1,
            epf_channel_scale := cs.1, epf_pass1_zeroflush := zf1.1,
            epf_pass2_zeroflush := zf2.1, epf_sigma_custom := sc.1,
            epf_quant_mul := qm.1, epf_pass0_sigma_scale := ss0.1,
            epf_pass2_sigma_scale := ss2.1, epf_border_sad_mul := bsm.1,
            epf_sigma_for_modular := sfm.1, extensions := ext.1 }, ext.2)

/-- Modelled from the spec: an extra-channel descriptor carries a dimension
shift (`ExtraChannelInfo::dim_shift()`; the type lives outside the given
sources). -/
structure ExtraChannelInfo where
  dim_shift : Nat
deriving DecidableEq, Repr

/-- `FrameHeaderNonserialized`, frame_header.rs lines 246-254. -/
structure FrameHeaderNonserialized where
  xyb_encoded : Bool
  num_extra_channels : Nat
  extra_channel_info : List ExtraChannelInfo
  have_animation : Bool
  have_timecode : Bool
  img_width : Nat
  img_height : Nat
deriving DecidableEq, Repr

/-- `Flags::USE_LF_FRAME`, frame_header.rs line 38. -/
def USE_LF_FRAME : Nat := 0x20

/-- `FrameHeader`, frame_header.rs lines 256-400.  `jpeg_upsampling` is the
`[u32; 3]` triple; `name` is the byte string. -/
structure FrameHeader where
  all_default : Bool
  frame_type : FrameType
  encoding : Encoding
  flags : Nat
  do_ycbcr : Bool
  jpeg_upsampling : Nat × Nat × Nat
  upsampling : Nat
  ec_upsampling : List Nat
  group_size_shift : Nat
  x_qm_scale : Nat
  b_qm_scale : Nat
  passes : Passes
  lf_level : Nat
  have_crop : Bool
  x0 : Int
  y0 : Int
  width : Nat
  height : Nat
  blending_info : BlendingInfo
  ec_blending_info : List BlendingInfo
  duration : Nat
  timecode : Nat
  is_last : Bool
  save_as_reference : Nat
  save_before_ct : Bool
  name : List Nat
  restoration_filter : RestorationFilter
  extensions : Nat
deriving DecidableEq, Repr

/-- The `#[default(...)]` expression of `save_before_ct` exactly as the SOURCE
computes it (frame_header.rs lines 384-388): the negation lands on the
full-coverage disjunction only, and the remaining conjuncts are ANDed outside
of it. -/
def save_before_ct_default (have_crop : Bool) (x0 y0 : Int)
    (width height img_width img_height : Nat) (frame_type : FrameType)
    (mode : BlendingMode) (duration save_as_reference : Nat) (is_last : Bool) : Bool :=
  (!(full_frame have_crop x0 y0 width height img_width img_height)) &&
    (frame_type == .RegularFrame || frame_type == .SkipProgressive) &&
    mode == .Replace && (duration == 0 || save_as_reference != 0) && !is_last

/-- The default for `save_before_ct` as the source's own doc comment (frame
header lines 381-383, quoting the format draft) and the claim state it:
`d_sbct = !(full_frame && (frame_type == kRegularFrame || frame_type ==
kSkipProgressive) && blending_info.mode == kReplace && (duration == 0 ||
save_as_reference != 0) && !is_last)` — the negation over the WHOLE
conjunction. -/
def save_before_ct_default_spec (have_crop : Bool) (x0 y0 : Int)
    (width height img_width img_height : Nat) (frame_type : FrameType)
    (mode : BlendingMode) (duration save_as_reference : Nat) (is_last : Bool) : Bool :=
  !(full_frame have_crop x0 y0 width height img_width img_height &&
    (frame_type == .RegularFrame || frame_type == .SkipProgressive) &&
    mode == .Replace && (duration == 0 || save_as_reference != 0) && !is_last)

/-- The record of declared defaults of `FrameHeader`: each field's
`#[default(...)]` expression evaluated over the earlier defaults and the
external context (this is the record produced when `all_default` decodes
true). -/
def FrameHeader.default_header (ns : FrameHeaderNonserialized) : FrameHeader :=
  { all_default := true, frame_type := .RegularFrame, encoding := .VarDCT,
    flags := 0, do_ycbcr := false, jpeg_upsampling := (0, 0, 0), upsampling := 1,
    ec_upsampling := List.replicate ns.num_extra_channels 1,
    group_size_shift := 1, x_qm_scale := 3, b_qm_scale := 2,
    passes := Passes.default_value, lf_level := 0, have_crop := false,
    x0 := 0, y0 := 0, width := 0, height := 0,
    blending_info := BlendingInfo.default_value,
    ec_blending_info := List.replicate ns.num_extra_channels BlendingInfo.default_value,
    duration := 0, timecode := 0,
    is_last := decide (FrameType.RegularFrame = FrameType.RegularFrame),
    save_as_reference := 0,
    save_before_ct := save_before_ct_default false 0 0 0 0 ns.img_width ns.img_height
      .RegularFrame .Replace 0 0 true,
    name := [], restoration_filter := RestorationFilter.default_value,
    extensions := 0 }

/-- Decode of `FrameHeader` (field order, coders, conditions and defaults from
the source, frame_header.rs lines 256-400; engine semantics — `all_default`
shortcut, condition-or-default walk, trailing byte alignment for the
`#[aligned]` record — modelled from the spec). -/
def FrameHeader.read (ns : FrameHeaderNonserialized) (s : List Bool) (p : Nat) :
    Except Error (FrameHeader × Nat) := do
  let ad ← read_bool s p
  if ad.1 then
    pure (FrameHeader.default_header ns, align8 ad.2)
  else
    let ft ← read_enum FrameType.from_u32 s ad.2
    let ev ← read_bits s ft.2 1
    let fl ← read_u64 s ev.2
    let dy ← read_if (¬ns.xyb_encoded) (read_bool s fl.2) (pure (false, fl.2))
    let ju ← read_if (dy.1 = true ∧ fl.1 &&& USE_LF_FRAME = 0)
      (do
        let j1 ← read_bits s dy.2 2
        let j2 ← read_bits s j1.2 2
        let j3 ← read_bits s j2.2 2
        pure (((j1.1, j2.1, j3.1) : Nat × Nat × Nat), j3.2))
      (pure (((0, 0, 0) : Nat × Nat × Nat), dy.2))
    let up ← read_if (fl.1 &&& USE_LF_FRAME = 0)
      (read_u2s (.Val 1) (.Val 2) (.Val 4) (.Val 8) s ju.2)
      (pure (1, ju.2))
    let ecu ← read_if (fl.1 &&& USE_LF_FRAME = 0)
      (read_seq (read_u2s (.Val 1) (.Val 2) (.Val 4) (.Val 8)) s ns.num_extra_channels up.2)
      (pure (List.replicate ns.num_extra_channels 1, up.2))
    let gss ← read_if ((if ev.1 = 0 then Encoding.VarDCT else Encoding.Modular) = .Modular)
      (read_bits s ecu.2 2) (pure (1, ecu.2))
    let xqm ← read_if ((if ev.1 = 0 then Encoding.VarDCT else Encoding.Modular) = .VarDCT ∧
        ns.xyb_encoded)
      (read_bits s gss.2 3) (pure (3, gss.2))
    let bqm ← read_if ((if ev.1 = 0 then Encoding.VarDCT else Encoding.Modular) = .VarDCT ∧
        ns.xyb_encoded)
      (read_bits s xqm.2 3) (pure (2, xqm.2))
    let pas ← read_if (ft.1 ≠ .ReferenceOnly) (Passes.read s bqm.2)
      (pure (Passes.default_value, bqm.2))
    let lfl ← read_if (ft.1 = .LFFrame)
      (read_u2s (.Val 1) (.Val 2) (.Val 3) (.Val 4) s pas.2) (pure (0, pas.2))
    let hc ← read_if (ft.1 ≠ .LFFrame) (read_bool s lfl.2) (pure (false, lfl.2))
    let x0v ← read_if (hc.1 = true ∧ ft.1 ≠ .ReferenceOnly)
      (do
        let u ← read_u2s (.BitsOffset 8 0) (.BitsOffset 11 256)
          (.BitsOffset 14 2304) (.BitsOffset 30 18688) s hc.2
        pure (unpack_signed u.1, u.2))
      (pure ((0 : Int), hc.2))
    let y0v ← read_if (hc.1 = true ∧ ft.1 ≠ .ReferenceOnly)
      (do
        let u ← read_u2s (.BitsOffset 8 0) (.BitsOffset 11 256)
          (.BitsOffset 14 2304) (.BitsOffset 30 18688) s x0v.2
        pure (unpack_signed u.1, u.2))
      (pure ((0 : Int), x0v.2))
    let wv ← read_if (hc.1 = true)
      (read_u2s (.BitsOffset 8 0) (.BitsOffset 11 256)
        (.BitsOffset 14 2304) (.BitsOffset 30 18688) s y0v.2)
      (pure (0, y0v.2))
    let hv ← read_if (hc.1 = true)
      (read_u2s (.BitsOffset 8 0) (.BitsOffset 11 256)
        (.BitsOffset 14 2304) (.BitsOffset 30 18688) s wv.2)
      (pure (0, wv.2))
    let bi ← read_if (ft.1 = .RegularFrame ∨ ft.1 = .SkipProgressive)
      (BlendingInfo.read
        { num_extra_channels := ns.num_extra_channels, have_crop := hc.1,
          x0 := x0v.1, y0 := y0v.1, width := wv.1, height := hv.1,
          img_width := ns.img_width, img_height := ns.img_height } s hv.2)
      (pure (BlendingInfo.default_value, hv.2))
    let ecb ← read_seq (BlendingInfo.read
      { num_extra_channels := ns.num_extra_channels, have_crop := hc.1,
        x0 := x0v.1, y0 := y0v.1, width := wv.1, height := hv.1,
        img_width := ns.img_width, img_height := ns.img_height }) s
      ns.num_extra_channels bi.2
    let dur ← read_if ((ft.1 = .RegularFrame ∨ ft.1 = .SkipProgressive) ∧ ns.have_animation)
      (read_u2s (.Val 0) (.Val 1) (.BitsOffset 8 0) (.BitsOffset 32 0) s ecb.2)
      (pure (0, ecb.2))
    let tc ← read_if ((ft.1 = .RegularFrame ∨ ft.1 = .SkipProgressive) ∧ ns.have_timecode)
      (read_bits s dur.2 32) (pure (0, dur.2))
    let il ← read_if (ft.1 = .RegularFrame ∨ ft.1 = .SkipProgressive)
      (read_bool s tc.2) (pure (decide (ft.1 = .RegularFrame), tc.2))
    let sar ← read_if (ft.1 ≠ .LFFrame ∧ il.1 ≠ true) (read_bits s il.2 2)
      (pure (0, il.2))
    let sbc ← read_if (ft.1 ≠ .LFFrame) (read_bool s sar.2)
      (pure (save_before_ct_default hc.1 x0v.1 y0v.1 wv.1 hv.1
        ns.img_width ns.img_height ft.1 bi.1.mode dur.1 sar.1 il.1, sar.2))
    let nm ← read_name s sbc.2
    let rf ← RestorationFilter.read (if ev.1 = 0 then Encoding.VarDCT else Encoding.Modular) s nm.2
    let ext ← read_extensions s rf.2
    pure ({ all_default := ad.1, frame_type := ft.1,
            encoding := (if ev.1 = 0 then Encoding.VarDCT else Encoding.Modular), flags := fl.1,
            do_ycbcr := dy.1, jpeg_upsampling := ju.1, upsampling := up.1,
            ec_upsampling := ecu.1, group_size_shift := gss.1, x_qm_scale := xqm.1,
            b_qm_scale := bqm.1, passes := pas.1, lf_level := lfl.1,
            have_crop := hc.1, x0 := x0v.1, y0 := y0v.1, width := wv.1,
            height := hv.1, blending_info := bi.1, ec_blending_info := ecb.1,
            duration := dur.1, timecode := tc.1, is_last := il.1,
            save_as_reference := sar.1, save_before_ct := sbc.1, name := nm.1,
            restoration_filter := rf.1, extensions := ext.1 }, align8 ext.2)

/-- `u32::div_ceil`: quotient plus one when the remainder is nonzero. -/
def div_ceil (a b : Nat) : Nat := a / b + if a % b = 0 then 0 else 1

/-- `H_SHIFT` table, frame_header.rs line 406. -/
def H_SHIFT : List Nat := [0, 1, 1, 0]

/-- `V_SHIFT` table, frame_header.rs line 407. -/
def V_SHIFT : List Nat := [0, 1, 0, 1]

/-- `FrameHeader::num_toc_entries`, frame_header.rs lines 403-432.  The table
lookups index with the `jpeg_upsampling` entries and panic in Rust when an
entry is ≥ 4, so the result is `none` there; the two group-count products and
the final `2 +` are `u32` arithmetic and wrap at `2 ^ 32`. -/
def FrameHeader.num_toc_entries (h : FrameHeader) : Option Nat :=
  match H_SHIFT.get? h.jpeg_upsampling.1, H_SHIFT.get? h.jpeg_upsampling.2.1,
        H_SHIFT.get? h.jpeg_upsampling.2.2, V_SHIFT.get? h.jpeg_upsampling.1,
        V_SHIFT.get? h.jpeg_upsampling.2.1, V_SHIFT.get? h.jpeg_upsampling.2.2 with
  | some h1, some h2, some h3, some v1, some v2, some v3 =>
    let maxhs := max (max (max 0 h1) h2) h3
    let maxvs := max (max (max 0 v1) v2) v3
    let xsize_blocks := (div_ceil h.width (8 <<< maxhs)) <<< maxhs
    let ysize_blocks := (div_ceil h.height (8 <<< maxvs)) <<< maxvs
    let group_dim := (256 >>> 1) <<< h.group_size_shift
    let xsize_groups := div_ceil h.width group_dim
    let ysize_groups := div_ceil h.height group_dim
    let xsize_dc_groups := div_ceil xsize_blocks group_dim
    let ysize_dc_groups := div_ceil ysize_blocks group_dim
    let num_groups := (xsize_groups * ysize_groups) % 2 ^ 32
    let num_dc_groups := (xsize_dc_groups * ysize_dc_groups) % 2 ^ 32
    if num_groups = 1 ∧ h.passes.num_passes = 1 then some 1
    else some ((2 + num_dc_groups) % 2 ^ 32)
  | _, _, _, _, _, _ => none

/-- The entry count `num_toc_entries` actually computes, written directly: a
single group at `128 << group_size_shift` granularity with one pass gives 1;
otherwise `2 + dc_group_count` with the DC granularity `8 * (128 <<
group_size_shift)` — independent of the chroma-subsampling shifts, which
cancel between the block rounding and the DC-group division. -/
def FrameHeader.num_toc_entries_value (h : FrameHeader) : Nat :=
  let group_dim := 128 <<< h.group_size_shift
  let num_groups := (div_ceil h.width group_dim * div_ceil h.height group_dim) % 2 ^ 32
  if num_groups = 1 ∧ h.passes.num_passes = 1 then 1
  else (2 + (div_ceil h.width (8 * group_dim) * div_ceil h.height (8 * group_dim)) % 2 ^ 32) % 2 ^ 32

/-- The TOC entry count as the SPEC'S words for claim C1 state it (for the
refinement comparison): one entry for a single spatial group at
`128 << group_size_shift` granularity with one pass, otherwise
`2 + dc_group_count` with `dc_group_count` obtained by ceiling-dividing the
crop width and height at `(128 << group_size_shift) << max_subsampling_shift`
granularity, the maximum chroma-subsampling shift taken over
`jpeg_upsampling`. -/
def claimed_num_toc_entries (h : FrameHeader) : Option Nat :=
  match H_SHIFT.get? h.jpeg_upsampling.1, H_SHIFT.get? h.jpeg_upsampling.2.1,
        H_SHIFT.get? h.jpeg_upsampling.2.2, V_SHIFT.get? h.jpeg_upsampling.1,
        V_SHIFT.get? h.jpeg_upsampling.2.1, V_SHIFT.get? h.jpeg_upsampling.2.2 with
  | some h1, some h2, some h3, some v1, some v2, some v3 =>
    let maxhs := max (max (max 0 h1) h2) h3
    let maxvs := max (max (max 0 v1) v2) v3
    let max_shift := max maxhs maxvs
    let group_dim := 128 <<< h.group_size_shift
    if div_ceil h.width group_dim * div_ceil h.height group_dim = 1 ∧
        h.passes.num_passes = 1 then some 1
    else
      let dc_dim := group_dim <<< max_shift
      some (2 + div_ceil h.width dc_dim * div_ceil h.height dc_dim)
  | _, _, _, _, _, _ => none

/-- The scrutinee of the extra-channel validation in `FrameHeader::check`,
frame_header.rs lines 434-443: when the base upsampling exceeds 1, the first
zipped (descriptor, ec_upsampling) pair whose shifted factor is below the base
factor or whose factor exceeds 8. -/
def FrameHeader.ec_upsampling_violation (h : FrameHeader) (ns : FrameHeaderNonserialized) :
    Option (ExtraChannelInfo × Nat) :=
  if h.upsampling > 1 then
    (ns.extra_channel_info.zip h.ec_upsampling).find?
      (fun e => decide (e.2 <<< e.1.dim_shift < h.upsampling ∨ 8 < e.2))
  else none

/-- `FrameHeader::check`, frame_header.rs lines 433-460. -/
def FrameHeader.check (h : FrameHeader) (ns : FrameHeaderNonserialized) : Except Error Unit :=
  match h.ec_upsampling_violation ns with
  | some e => .error (.InvalidEcUpsampling h.upsampling e.1.dim_shift e.2)
  | none =>
    if h.passes.num_ds ≥ h.passes.num_passes then
      .error (.NumPassesTooLarge h.passes.num_ds h.passes.num_passes)
    else .ok ()

/-- Whether a `check` result is the invalid-extra-channel-upsampling error. -/
def is_invalid_ec_error : Except Error Unit → Bool
  | .error (.InvalidEcUpsampling _ _ _) => true
  | _ => false

/-- Decomposition of a successful `Except` bind. -/
theorem bind_ok {α β : Type} {x : Except Error α} {f : α → Except Error β} {b : β} :
    x >>= f = .ok b ↔ ∃ a, x = .ok a ∧ f a = .ok b := by
  cases x with
  | error e => simp [Bind.bind, Except.bind]
  | ok a => simp [Bind.bind, Except.bind]

/-- The value of `n` bits is below `2 ^ n`. -/
theorem bits_val_lt (s : List Bool) (p n : Nat) : bits_val s p n < 2 ^ n := by
  induction n generalizing p with
  | zero => simp [bits_val]
  | succ n ih =>
    have := ih (p + 1)
    simp only [bits_val, pow_succ]
    split <;> omega

/-- A successful raw-bit read is bounded by its width and advances by it. -/
theorem read_bits_ok {s : List Bool} {p n : Nat} {r : Nat × Nat}
    (h : read_bits s p n = .ok r) : r.1 < 2 ^ n ∧ r.2 = p + n := by
  rw [read_bits] at h
  split at h
  · cases h
    exact ⟨bits_val_lt s p n, rfl⟩
  · cases h

/-- A successful boolean read advances by one bit. -/
theorem read_bool_ok {s : List Bool} {p : Nat} {r : Bool × Nat}
    (h : read_bool s p = .ok r) : r.2 = p + 1 := by
  rw [read_bool] at h
  obtain ⟨a, ha, h⟩ := bind_ok.mp h
  have := (read_bits_ok ha).2
  simp only [pure, Except.pure, Except.ok.injEq] at h
  subst h
  simpa using this

/-- A selector coding whose four alternatives are all constants yields one of
the four constants. -/
theorem read_u2s_val_cases {a b c d : Nat} {s : List Bool} {p : Nat} {r : Nat × Nat}
    (h : read_u2s (.Val a) (.Val b) (.Val c) (.Val d) s p = .ok r) :
    r.1 = a ∨ r.1 = b ∨ r.1 = c ∨ r.1 = d := by
  rw [read_u2s] at h
  obtain ⟨sel, hsel, h⟩ := bind_ok.mp h
  rcases sel with ⟨v, q⟩
  rcases v with _ | _ | _ | v <;>
    simp only [u2s_alt, pure, Except.pure, Except.ok.injEq] at h <;>
    subst h <;> simp

/-- Elementwise property of a decoded sequence, inherited from the
per-element coder. -/
theorem read_seq_mem {α : Type} (P : α → Prop)
    {rd : List Bool → Nat → Except Error (α × Nat)} {s : List Bool}
    (hrd : ∀ p r, rd s p = .ok r → P r.1) :
    ∀ {n p : Nat} {l : List α} {q : Nat},
      read_seq rd s n p = .ok (l, q) → ∀ x ∈ l, P x := by
  intro n
  induction n with
  | zero =>
    intro p l q h x hx
    simp only [read_seq, pure, Except.pure, Except.ok.injEq, Prod.mk.injEq] at h
    rcases h with ⟨rfl, rfl⟩
    cases hx
  | succ n ih =>
    intro p l q h x hx
    rw [read_seq] at h
    obtain ⟨r, hr, h⟩ := bind_ok.mp h
    obtain ⟨rest, hrest, h⟩ := bind_ok.mp h
    simp only [pure, Except.pure, Except.ok.injEq, Prod.mk.injEq] at h
    rcases h with ⟨rfl, rfl⟩
    rcases List.mem_cons.mp hx with rfl | hx
    · exact hrd _ _ hr
    · exact ih (by rw [← Prod.mk.eta (p := rest)] at hrest; exact hrest) x hx

/-- Unfolding `read_if` on a true condition. -/
theorem read_if_pos {α : Type} {c : Prop} [Decidable c] {t e : Except Error (α × Nat)}
    (hc : c) : read_if c t e = t := by
  rw [read_if, if_pos hc]

/-- Unfolding `read_if` on a false condition. -/
theorem read_if_neg {α : Type} {c : Prop} [Decidable c] {t e : Except Error (α × Nat)}
    (hc : ¬c) : read_if c t e = e := by
  rw [read_if, if_neg hc]

/-- A successful `read_if` whose branches both satisfy a property satisfies
it. -/
theorem read_if_elim {α : Type} {c : Prop} [Decidable c] {t e : Except Error (α × Nat)}
    {a : α × Nat} (P : α × Nat → Prop) (h : read_if c t e = .ok a)
    (ht : t = .ok a → P a) (he : e = .ok a → P a) : P a := by
  rw [read_if] at h
  split at h
  · exact ht h
  · exact he h

/-- Range facts guaranteed by the decoder for every successfully decoded
frame header: the `jpeg_upsampling` entries and `group_size_shift` come from
2-bit raw reads (or default to 0 resp. 1), the upsampling factors from the
`u2S(1, 2, 4, 8)` coder (or default to 1), and the crop rectangle defaults to
zero when `have_crop` is false. -/
theorem FrameHeader.read_ranges {ns : FrameHeaderNonserialized} {s : List Bool}
    {p : Nat} {h : FrameHeader} {p' : Nat}
    (hdec : FrameHeader.read ns s p = .ok (h, p')) :
    h.jpeg_upsampling.1 < 4 ∧ h.jpeg_upsampling.2.1 < 4 ∧ h.jpeg_upsampling.2.2 < 4 ∧
    h.group_size_shift < 4 ∧
    (h.upsampling = 1 ∨ h.upsampling = 2 ∨ h.upsampling = 4 ∨ h.upsampling = 8) ∧
    (∀ u ∈ h.ec_upsampling, u = 1 ∨ u = 2 ∨ u = 4 ∨ u = 8) ∧
    (h.have_crop = false → h.x0 = 0 ∧ h.y0 = 0 ∧ h.width = 0 ∧ h.height = 0) := by
  rw [FrameHeader.read] at hdec
  obtain ⟨ad, had, hdec⟩ := bind_ok.mp hdec
  by_cases hb : ad.1
  · rw [if_pos hb] at hdec
    simp only [pure, Except.pure, Except.ok.injEq, Prod.mk.injEq] at hdec
    obtain ⟨hh, -⟩ := hdec
    subst hh
    refine ⟨by simp [FrameHeader.default_header], by simp [FrameHeader.default_header],
      by simp [FrameHeader.default_header], by simp [FrameHeader.default_header],
      by simp [FrameHeader.default_header], ?_, by simp [FrameHeader.default_header]⟩
    intro u hu
    simp only [FrameHeader.default_header] at hu
    exact Or.inl (List.eq_of_mem_replicate hu)
  · rw [if_neg hb] at hdec
    simp only [bind_ok, pure, Except.pure, Except.ok.injEq, Prod.mk.injEq] at hdec
    obtain ⟨ft, hft, ev, hev, fl, hfl, dy, hdy, ju, hju, up, hup, ecu, hecu, gss, hgss,
      xqm, hxqm, bqm, hbqm, pas, hpas, lfl, hlfl, hc, hhc, x0v, hx0, y0v, hy0,
      wv, hwv, hv, hhv, bi, hbi, ecb, hecb, dur, hdur, tc, htc, il, hil,
      sar, hsar, sbc, hsbc, nm, hnm, rf, hrf, ext, hext, hrec, -⟩ := hdec
    subst hrec
    dsimp only
    refine ⟨?_, ?_, ?_, ?_, ?_, ?_, ?_⟩
    · refine read_if_elim (fun a => a.1.1 < 4) hju (fun hj => ?_) (fun hj => ?_)
      · simp only [bind_ok, pure, Except.pure, Except.ok.injEq] at hj
        obtain ⟨j1, hj1, j2, hj2, j3, hj3, hj⟩ := hj
        have := (read_bits_ok hj1).1
        rw [← hj]
        simpa using this
      · simp only [pure, Except.pure, Except.ok.injEq] at hj
        rw [← hj]
        simp
    · refine read_if_elim (fun a => a.1.2.1 < 4) hju (fun hj => ?_) (fun hj => ?_)
      · simp only [bind_ok, pure, Except.pure, Except.ok.injEq] at hj
        obtain ⟨j1, hj1, j2, hj2, j3, hj3, hj⟩ := hj
        have := (read_bits_ok hj2).1
        rw [← hj]
        simpa using this
      · simp only [pure, Except.pure, Except.ok.injEq] at hj
        rw [← hj]
        simp
    · refine read_if_elim (fun a => a.1.2.2 < 4) hju (fun hj => ?_) (fun hj => ?_)
      · simp only [bind_ok, pure, Except.pure, Except.ok.injEq] at hj
        obtain ⟨j1, hj1, j2, hj2, j3, hj3, hj⟩ := hj
        have := (read_bits_ok hj3).1
        rw [← hj]
        simpa using this
      · simp only [pure, Except.pure, Except.ok.injEq] at hj
        rw [← hj]
        simp
    · refine read_if_elim (fun a => a.1 < 4) hgss (fun hg => ?_) (fun hg => ?_)
      · have := (read_bits_ok hg).1
        simpa using this
      · simp only [pure, Except.pure, Except.ok.injEq] at hg
        rw [← hg]
        simp
    · refine read_if_elim (fun a => a.1 = 1 ∨ a.1 = 2 ∨ a.1 = 4 ∨ a.1 = 8) hup
        (fun hu => ?_) (fun hu => ?_)
      · exact read_u2s_val_cases hu
      · simp only [pure, Except.pure, Except.ok.injEq] at hu
        rw [← hu]
        simp
    · refine read_if_elim (fun a => ∀ u ∈ a.1, u = 1 ∨ u = 2 ∨ u = 4 ∨ u = 8) hecu
        (fun he => ?_) (fun he => ?_)
      · intro u hu
        exact read_seq_mem (fun u => u = 1 ∨ u = 2 ∨ u = 4 ∨ u = 8)
          (fun q r hr => read_u2s_val_cases hr)
          (by rw [← Prod.mk.eta (p := ecu)] at he; exact he) u hu
      · simp only [pure, Except.pure, Except.ok.injEq] at he
        rw [← he]
        intro u hu
        exact Or.inl (List.eq_of_mem_replicate hu)
    · intro hcf
      have hcc : ¬(hc.1 = true) := by simp [hcf]
      have hcc2 : ¬(hc.1 = true ∧ ft.1 ≠ FrameType.ReferenceOnly) := fun hx => hcc hx.1
      rw [read_if_neg hcc2] at hx0 hy0
      rw [read_if_neg hcc] at hwv hhv
      simp only [pure, Except.pure, Except.ok.injEq] at hx0 hy0 hwv hhv
      exact ⟨by rw [← hx0], by rw [← hy0], by rw [← hwv], by rw [← hhv]⟩

/-- Closed form of `div_ceil` for a positive divisor. -/
theorem div_ceil_eq (a : Nat) {b : Nat} (hb : 0 < b) : div_ceil a b = (a + b - 1) / b := by
  rw [div_ceil]
  have h0 := Nat.div_add_mod a b
  have h1 := Nat.mod_lt a hb
  rcases Nat.eq_zero_or_pos (a % b) with hr | hr
  · have he : a + b - 1 = (b - 1) + b * (a / b) := by omega
    rw [if_pos hr, he, Nat.add_mul_div_left _ _ hb,
      Nat.div_eq_of_lt (show b - 1 < b by omega)]
    omega
  · have hd : b * (a / b + 1) = b * (a / b) + b := by ring
    have he : a + b - 1 = (a % b - 1) + b * (a / b + 1) := by omega
    rw [if_neg (by omega), he, Nat.add_mul_div_left _ _ hb,
      Nat.div_eq_of_lt (show a % b - 1 < b by omega)]
    omega

/-- Ceiling division by `b` of a successor. -/
theorem div_ceil_succ (x : Nat) {b : Nat} (hb : 0 < b) : div_ceil (x + 1) b = x / b + 1 := by
  rw [div_ceil_eq _ hb]
  have : x + 1 + b - 1 = x + b := by omega
  rw [this, Nat.add_div_right _ hb]

/-- Iterated ceiling division collapses to ceiling division by the product. -/
theorem div_ceil_div_ceil (a : Nat) {m n : Nat} (hm : 0 < m) (hn : 0 < n) :
    div_ceil (div_ceil a m) n = div_ceil a (m * n) := by
  cases a with
  | zero => simp [div_ceil]
  | succ x =>
    rw [div_ceil_succ x hm, div_ceil_succ _ hn, div_ceil_succ x (by positivity),
      Nat.div_div_eq_div_mul]

/-- A common factor of numerator and divisor cancels in ceiling division. -/
theorem div_ceil_mul_left (a : Nat) {k n : Nat} (hk : 0 < k) (hn : 0 < n) :
    div_ceil (a * k) (k * n) = div_ceil a n := by
  rw [div_ceil, div_ceil, mul_comm a k, Nat.mul_div_mul_left _ _ hk, Nat.mul_mod_mul_left]
  have : k * (a % n) = 0 ↔ a % n = 0 := by
    constructor
    · intro hz
      rcases Nat.mul_eq_zero.mp hz with h | h
      · omega
      · exact h
    · intro hz
      rw [hz, mul_zero]
  by_cases hmod : a % n = 0
  · rw [if_pos (this.mpr hmod), if_pos hmod]
  · rw [if_neg (fun hz => hmod (this.mp hz)), if_neg hmod]

/-- The DC-group count of `num_toc_entries`: rounding the width up to blocks
at `8 << sft` granularity, scaling back by `<< sft`, and ceiling-dividing by
the group dimension equals ceiling division by `8 *` the group dimension —
the subsampling shift cancels (for the shifts 0 and 1 that occur). -/
theorem dc_cancel (w sft g : Nat) (hs : sft ≤ 1) :
    div_ceil ((div_ceil w (8 <<< sft)) <<< sft) (128 <<< g) =
      div_ceil w (8 * (128 <<< g)) := by
  have hg : (0 : Nat) < 2 ^ g := Nat.pos_pow_of_pos g (by omega)
  simp only [Nat.shiftLeft_eq]
  interval_cases sft
  · simp only [pow_zero, mul_one]
    exact div_ceil_div_ceil w (by omega) (by positivity)
  · have e1 : (8 : Nat) * 2 ^ 1 = 16 := by norm_num
    have e2 : (128 : Nat) * 2 ^ g = 2 * (64 * 2 ^ g) := by ring
    have e3 : (2 : Nat) ^ 1 = 2 := by norm_num
    rw [e1, e2, e3, div_ceil_mul_left _ (by omega) (by positivity),
      div_ceil_div_ceil w (by omega) (by positivity)]
    congr 1
    ring

/-- `H_SHIFT` lookups succeed below index 4 and are at most 1. -/
theorem hshift_lt {j : Nat} (hj : j < 4) : ∃ v, H_SHIFT.get? j = some v ∧ v ≤ 1 := by
  interval_cases j
  exacts [⟨0, rfl, by omega⟩, ⟨1, rfl, by omega⟩, ⟨1, rfl, by omega⟩, ⟨0, rfl, by omega⟩]

/-- `V_SHIFT` lookups succeed below index 4 and are at most 1. -/
theorem vshift_lt {j : Nat} (hj : j < 4) : ∃ v, V_SHIFT.get? j = some v ∧ v ≤ 1 := by
  interval_cases j
  exacts [⟨0, rfl, by omega⟩, ⟨1, rfl, by omega⟩, ⟨0, rfl, by omega⟩, ⟨1, rfl, by omega⟩]

/-- On in-range `jpeg_upsampling` entries, `num_toc_entries` computes exactly
the simplified count. -/
theorem num_toc_entries_eq {h : FrameHeader}
    (h1 : h.jpeg_upsampling.1 < 4) (h2 : h.jpeg_upsampling.2.1 < 4)
    (h3 : h.jpeg_upsampling.2.2 < 4) :
    h.num_toc_entries = some h.num_toc_entries_value := by
  obtain ⟨a1, ha1, ha1le⟩ := hshift_lt h1
  obtain ⟨a2, ha2, ha2le⟩ := hshift_lt h2
  obtain ⟨a3, ha3, ha3le⟩ := hshift_lt h3
  obtain ⟨b1, hb1, hb1le⟩ := vshift_lt h1
  obtain ⟨b2, hb2, hb2le⟩ := vshift_lt h2
  obtain ⟨b3, hb3, hb3le⟩ := vshift_lt h3
  rw [FrameHeader.num_toc_entries, ha1, ha2, ha3, hb1, hb2, hb3,
    FrameHeader.num_toc_entries_value]
  dsimp only
  have hs : (256 : Nat) >>> 1 = 128 := rfl
  rw [hs, dc_cancel _ _ _ (by omega), dc_cancel _ _ _ (by omega)]
  split <;> rfl

/-- The extra-channel validation of `check` raises `InvalidEcUpsampling` iff
some zipped channel violates the factor constraint — given the factor ranges
the decoder guarantees. -/
theorem check_ec_iff {h : FrameHeader} {ns : FrameHeaderNonserialized}
    (hec : ∀ u ∈ h.ec_upsampling, u = 1 ∨ u = 2 ∨ u = 4 ∨ u = 8) :
    is_invalid_ec_error (h.check ns) = true ↔
      ∃ e ∈ ns.extra_channel_info.zip h.ec_upsampling,
        e.2 <<< e.1.dim_shift < h.upsampling ∨ 8 < e.2 := by
  constructor
  · intro herr
    rw [FrameHeader.check] at herr
    cases hv : h.ec_upsampling_violation ns with
    | some e =>
      rw [FrameHeader.ec_upsampling_violation] at hv
      split at hv
      · refine ⟨e, List.mem_of_find?_eq_some hv, ?_⟩
        have := List.find?_some hv
        simpa using this
      · cases hv
    | none =>
      rw [hv] at herr
      dsimp only at herr
      split at herr <;> simp [is_invalid_ec_error] at herr
  · intro hex
    obtain ⟨e, hmem, hcond⟩ := hex
    obtain ⟨e1, e2⟩ := e
    have hu2 := hec e2 (List.of_mem_zip hmem).2
    have h8 : ¬ (8 < e2) := by rcases hu2 with h | h | h | h <;> omega
    have hlt : e2 <<< e1.dim_shift < h.upsampling := by
      rcases hcond with hcl | hcr
      · exact hcl
      · exact absurd hcr h8
    have hpos : 0 < e2 <<< e1.dim_shift := by
      rw [Nat.shiftLeft_eq]
      exact Nat.mul_pos (by rcases hu2 with h | h | h | h <;> omega)
        (Nat.pos_pow_of_pos _ (by omega))
    have hup1 : 1 < h.upsampling := by omega
    rw [FrameHeader.check]
    cases hv : h.ec_upsampling_violation ns with
    | some q => rfl
    | none =>
      rw [FrameHeader.ec_upsampling_violation, if_pos hup1] at hv
      have := List.find?_eq_none.mp hv _ hmem
      simp only [decide_eq_true_eq] at this
      exact absurd (Or.inl hlt) this

/-- C3: for every decoded frame header and external context, `check` raises
the invalid-extra-channel-upsampling error iff some extra channel's
upsampling `u` and dimension shift `d` satisfy `(u << d) < upsampling` or
`u > 8`; on decoded headers the `upsampling > 1` gate in the code is
immaterial, so no extra precondition shows up in the equivalence. -/
theorem c3_ec_upsampling_validation (nsd : FrameHeaderNonserialized) (s : List Bool)
    (p : Nat) (h : FrameHeader) (p' : Nat)
    (hdec : FrameHeader.read nsd s p = .ok (h, p')) (ns : FrameHeaderNonserialized) :
    is_invalid_ec_error (h.check ns) = true ↔
      ∃ e ∈ ns.extra_channel_info.zip h.ec_upsampling,
        e.2 <<< e.1.dim_shift < h.upsampling ∨ 8 < e.2 :=
  check_ec_iff (FrameHeader.read_ranges hdec).2.2.2.2.2.1

/-- C9: whenever the base upsampling factor is at most 1, `check` never
returns the invalid-extra-channel-upsampling error, whatever the
extra-channel factors are. -/
theorem c9_no_ec_error_when_upsampling_one (h : FrameHeader)
    (ns : FrameHeaderNonserialized) (hu : h.upsampling ≤ 1) :
    is_invalid_ec_error (h.check ns) = false := by
  rw [FrameHeader.check, FrameHeader.ec_upsampling_violation, if_neg (by omega)]
  dsimp only
  split <;> rfl

/-- C4 (amended): when the extra-channel validation does not fire, `check`
fails with `NumPassesTooLarge` exactly when `num_ds ≥ num_passes` and
succeeds exactly when `num_ds < num_passes`. -/
theorem c4_downsample_count_check (h : FrameHeader) (ns : FrameHeaderNonserialized)
    (hv : h.ec_upsampling_violation ns = none) :
    (h.passes.num_ds ≥ h.passes.num_passes →
      h.check ns = .error (.NumPassesTooLarge h.passes.num_ds h.passes.num_passes)) ∧
    (h.passes.num_ds < h.passes.num_passes → h.check ns = .ok ()) := by
  rw [FrameHeader.check, hv]
  constructor
  · intro hge
    rw [if_pos hge]
  · intro hlt
    rw [if_neg (by omega)]

/-- External context of the reference decodes: xyb-encoded 128×128 image, no
extra channels, no animation. -/
def ctx_c1 : FrameHeaderNonserialized :=
  { xyb_encoded := true, num_extra_channels := 0, extra_channel_info := [],
    have_animation := false, have_timecode := false, img_width := 128, img_height := 128 }

/-- External context with one extra channel of dimension shift 0. -/
def ctx_c4 : FrameHeaderNonserialized :=
  { xyb_encoded := true, num_extra_channels := 1, extra_channel_info := [⟨0⟩],
    have_animation := false, have_timecode := false, img_width := 128, img_height := 128 }

/-- A bitstream whose first bit (the `all_default` shortcut) is set. -/
def stream_default : List Bool := true :: List.replicate 7 false

/-- A bitstream decoding (under `ctx_c1`) to a modular frame with a 500×100
crop at the origin, `group_size_shift = 1` and a single pass. -/
def stream_c1 : List Bool :=
  [false, false, false, true, false, false, false, false, true, false, false, false, true,
   false, false, false, false, false, false, false, false, false, false,
   false, false, false, false, false, false, false, false, false, false,
   true, false, false, false, true, false, true, true, true, true, false, false, false,
   false, false, false, false, true, false, false, true, true, false,
   false, false, true, false, false, false, true, false, false,
   false, false, false, false, false, false, false]

/-- The frame header decoded from `stream_c1`. -/
def hdr_c1 : FrameHeader :=
  { all_default := false, frame_type := .RegularFrame, encoding := .Modular, flags := 0,
    do_ycbcr := false, jpeg_upsampling := (0, 0, 0), upsampling := 1, ec_upsampling := [],
    group_size_shift := 1, x_qm_scale := 3, b_qm_scale := 2, passes := Passes.default_value,
    lf_level := 0, have_crop := true, x0 := 0, y0 := 0, width := 500, height := 100,
    blending_info := BlendingInfo.default_value, ec_blending_info := [], duration := 0,
    timecode := 0, is_last := true, save_as_reference := 0, save_before_ct := false,
    name := [], restoration_filter := RestorationFilter.default_value, extensions := 0 }

/-- A bitstream decoding (under `ctx_c4`) to a VarDCT frame with base
upsampling 2, one extra channel with upsampling 1, and a single pass. -/
def stream_c4 : List Bool :=
  [false, false, false, false, false, false, true, false, false, false,
   false, true, false, false, true, false, false, false, false, false, false,
   false, false, true, false, false, false, true, false, false, false, false]

/-- The frame header decoded from `stream_c4`. -/
def hdr_c4 : FrameHeader :=
  { all_default := false, frame_type := .RegularFrame, encoding := .VarDCT, flags := 0,
    do_ycbcr := false, jpeg_upsampling := (0, 0, 0), upsampling := 2, ec_upsampling := [1],
    group_size_shift := 1, x_qm_scale := 2, b_qm_scale := 2, passes := Passes.default_value,
    lf_level := 0, have_crop := false, x0 := 0, y0 := 0, width := 0, height := 0,
    blending_info := BlendingInfo.default_value,
    ec_blending_info := [BlendingInfo.default_value], duration := 0,
    timecode := 0, is_last := true, save_as_reference := 0, save_before_ct := false,
    name := [], restoration_filter := RestorationFilter.default_value, extensions := 0 }

/-- C1 (amended): for every decoded frame header, `num_toc_entries` returns 1
when the crop needs a single spatial group at `128 << group_size_shift`
granularity and there is one pass, and otherwise `2 + dc_group_count` where
`dc_group_count` ceiling-divides the crop width and height at
`8 * (128 << group_size_shift)` granularity (in `u32` arithmetic) — the
chroma-subsampling shifts cancel and do not enter the DC granularity. -/
theorem c1_toc_entry_count (ns : FrameHeaderNonserialized) (s : List Bool) (p : Nat)
    (h : FrameHeader) (p' : Nat) (hdec : FrameHeader.read ns s p = .ok (h, p')) :
    h.num_toc_entries = some h.num_toc_entries_value := by
  obtain ⟨h1, h2, h3, -⟩ := FrameHeader.read_ranges hdec
  exact num_toc_entries_eq h1 h2 h3

/-- Witness for C1 at the all-default frame header. -/
theorem c1_toc_entry_count_witness :
    (FrameHeader.default_header ctx_c1).num_toc_entries =
      some (FrameHeader.default_header ctx_c1).num_toc_entries_value :=
  c1_toc_entry_count ctx_c1 stream_default 0 (FrameHeader.default_header ctx_c1) 8 rfl

/-- C1 counterexample: the decoded 500×100 modular frame `hdr_c1` has 3 TOC
entries, while the claim's formula (DC granularity
`(128 << group_size_shift) << max_subsampling_shift`, here 256) predicts 4. -/
theorem c1_counterexample :
    FrameHeader.read ctx_c1 stream_c1 0 = .ok (hdr_c1, 72) ∧
    hdr_c1.num_toc_entries = some 3 ∧ claimed_num_toc_entries hdr_c1 = some 4 :=
  ⟨rfl, rfl, rfl⟩

/-- C2 (code bug): at the all-default frame (no crop, regular last frame,
Replace blending, zero duration and reference slot) the source's
`save_before_ct` default expression — which negates only the full-coverage
term — yields `false`, while the formula in the source's own comment (the
negation over the whole conjunction, as the claim states it) yields `true`;
the all-default header therefore carries `save_before_ct = false`. -/
theorem c2_save_before_ct_divergence :
    save_before_ct_default false 0 0 0 0 128 128 .RegularFrame .Replace 0 0 true = false ∧
    save_before_ct_default_spec false 0 0 0 0 128 128 .RegularFrame .Replace 0 0 true = true ∧
    (FrameHeader.default_header ctx_c1).save_before_ct = false := by
  refine ⟨by decide, by decide, by decide⟩

/-- C4 counterexample: `hdr_c4` is a decoded frame header with
`num_ds < num_passes`, yet `check` does not succeed — the extra-channel
upsampling validation fires first (base factor 2, channel factor 1, shift 0),
so success is not equivalent to `num_ds < num_passes` alone. -/
theorem c4_counterexample :
    FrameHeader.read ctx_c4 stream_c4 0 = .ok (hdr_c4, 32) ∧
    hdr_c4.passes.num_ds < hdr_c4.passes.num_passes ∧
    hdr_c4.check ctx_c4 = .error (.InvalidEcUpsampling 2 0 1) :=
  ⟨rfl, by decide, by decide⟩

/-- Witness for C4 (amended) at the all-default header: no extra-channel
violation, and `num_ds = 0 < 1 = num_passes` gives a successful check. -/
theorem c4_downsample_count_check_witness :
    (FrameHeader.default_header ctx_c1).check ctx_c1 = .ok () :=
  (c4_downsample_count_check (FrameHeader.default_header ctx_c1) ctx_c1 (by decide)).2
    (by decide)

/-- Witness for C3: at the all-default header (base upsampling 1) and a
context without extra channels, neither side of the equivalence holds. -/
theorem c3_ec_upsampling_validation_witness :
    is_invalid_ec_error ((FrameHeader.default_header ctx_c1).check ctx_c1) = true ↔
      ∃ e ∈ ctx_c1.extra_channel_info.zip (FrameHeader.default_header ctx_c1).ec_upsampling,
        e.2 <<< e.1.dim_shift < (FrameHeader.default_header ctx_c1).upsampling ∨ 8 < e.2 :=
  c3_ec_upsampling_validation ctx_c1 stream_default 0
    (FrameHeader.default_header ctx_c1) 8 rfl ctx_c1

/-- Witness for C9 at the all-default header. -/
theorem c9_no_ec_error_witness :
    is_invalid_ec_error ((FrameHeader.default_header ctx_c4).check ctx_c4) = false :=
  c9_no_ec_error_when_upsampling_one (FrameHeader.default_header ctx_c4) ctx_c4 (by decide)

/-- C5: for both records that declare a default-shortcut field, any bitstream
whose shortcut bit decodes true yields the record of declared defaults, and
the cursor advances exactly one bit past the shortcut bit — plus the declared
byte alignment for the frame header — regardless of the remaining buffer
contents. -/
theorem c5_default_shortcut :
    (∀ (ns : FrameHeaderNonserialized) (s : List Bool) (p : Nat),
      read_bool s p = .ok (true, p + 1) →
      FrameHeader.read ns s p = .ok (FrameHeader.default_header ns, align8 (p + 1))) ∧
    (∀ (enc : Encoding) (s : List Bool) (p : Nat),
      read_bool s p = .ok (true, p + 1) →
      RestorationFilter.read enc s p = .ok (RestorationFilter.default_value, p + 1)) := by
  constructor
  · intro ns s p hrb
    rw [FrameHeader.read, hrb]
    rfl
  · intro enc s p hrb
    rw [RestorationFilter.read, hrb]
    rfl

/-- Witness for C5 on a concrete 8-bit buffer with the shortcut bit set. -/
theorem c5_default_shortcut_witness :
    FrameHeader.read ctx_c1 stream_default 0 = .ok (FrameHeader.default_header ctx_c1, 8) ∧
    RestorationFilter.read .VarDCT stream_default 0 =
      .ok (RestorationFilter.default_value, 1) :=
  ⟨c5_default_shortcut.1 ctx_c1 stream_default 0 (by decide),
   c5_default_shortcut.2 .VarDCT stream_default 0 (by decide)⟩

/-- C6: a four-alternative selector coding reads a 2-bit selector `sel`; a
constant alternative yields the constant with no further reads; a
`Bits(k) + off` alternative reads exactly `k` further raw bits `w` and yields
`off + w`; in particular for alternatives `(1, 2, 3, Bits(3) + 4)`, selector 3
followed by raw bits of value 5 yields 9. -/
theorem c6_selector_coding :
    (∀ (a0 a1 a2 a3 : U2S) (s : List Bool) (p sel c : Nat),
      read_bits s p 2 = .ok (sel, p + 2) → u2s_alt a0 a1 a2 a3 sel = .Val c →
      read_u2s a0 a1 a2 a3 s p = .ok (c, p + 2)) ∧
    (∀ (a0 a1 a2 a3 : U2S) (s : List Bool) (p sel k off w : Nat),
      read_bits s p 2 = .ok (sel, p + 2) → u2s_alt a0 a1 a2 a3 sel = .BitsOffset k off →
      read_bits s (p + 2) k = .ok (w, p + 2 + k) →
      read_u2s a0 a1 a2 a3 s p = .ok (off + w, p + 2 + k)) ∧
    read_u2s (.Val 1) (.Val 2) (.Val 3) (.BitsOffset 3 4)
      [true, true, true, false, true] 0 = .ok (9, 5) := by
  refine ⟨?_, ?_, by decide⟩
  · intro a0 a1 a2 a3 s p sel c hsel halt
    rw [read_u2s, hsel]
    dsimp only [Bind.bind, Except.bind]
    rw [halt]
    rfl
  · intro a0 a1 a2 a3 s p sel k off w hsel halt hbits
    rw [read_u2s, hsel]
    dsimp only [Bind.bind, Except.bind]
    rw [halt]
    dsimp only
    rw [hbits]
    rfl

/-- Witness for C6: selector 1 of `u2S(1, 2, 4, 8)` yields the constant 2. -/
theorem c6_selector_coding_witness :
    read_u2s (.Val 1) (.Val 2) (.Val 4) (.Val 8) [true, false] 0 = .ok (2, 2) :=
  c6_selector_coding.1 (.Val 1) (.Val 2) (.Val 4) (.Val 8) [true, false] 0 1 2
    (by decide) (by decide)

/-- C7: for the tag enumerations, a decoded integer code with no variant in
the closed tag set makes the decode of the enclosing record fail with
`InvalidTag`, and a successful decode always returns exactly the variant of
the decoded code — never a default or clamped value.  Stated for the blending
mode (with its declared `u2S(0, 1, 2, Bits(2) + 3)` coder, so codes 5 and 6
are rejected) and for the frame-type enumeration. -/
theorem c7_invalid_tag_rejection :
    (∀ (s : List Bool) (p v q : Nat),
      read_u2s (.Val 0) (.Val 1) (.Val 2) (.BitsOffset 2 3) s p = .ok (v, q) →
      (BlendingMode.from_u32 v = none →
        ∀ ns, BlendingInfo.read ns s p = .error .InvalidTag) ∧
      (∀ m r, BlendingMode.read s p = .ok (m, r) →
        BlendingMode.from_u32 v = some m ∧ r = q)) ∧
    (∀ (s : List Bool) (p v q : Nat),
      read_u2s (.Val 0) (.Val 1) (.BitsOffset 4 2) (.BitsOffset 6 18) s p = .ok (v, q) →
      (FrameType.from_u32 v = none → read_enum FrameType.from_u32 s p = .error .InvalidTag) ∧
      (∀ t r, read_enum FrameType.from_u32 s p = .ok (t, r) →
        FrameType.from_u32 v = some t ∧ r = q)) := by
  constructor
  · intro s p v q hu2s
    constructor
    · intro hnone ns
      have hbm : BlendingMode.read s p = .error .InvalidTag := by
        rw [BlendingMode.read, hu2s]
        dsimp only [Bind.bind, Except.bind]
        rw [hnone]
      rw [BlendingInfo.read, hbm]
      rfl
    · intro m r hm
      rw [BlendingMode.read, hu2s] at hm
      dsimp only [Bind.bind, Except.bind] at hm
      cases hcode : BlendingMode.from_u32 v with
      | none => rw [hcode] at hm; simp at hm
      | some m2 =>
        rw [hcode] at hm
        simp only [pure, Except.pure, Except.ok.injEq, Prod.mk.injEq] at hm
        exact ⟨congrArg some hm.1, hm.2.symm⟩
  · intro s p v q hu2s
    constructor
    · intro hnone
      rw [read_enum, hu2s]
      dsimp only [Bind.bind, Except.bind]
      rw [hnone]
    · intro t r hm
      rw [read_enum, hu2s] at hm
      dsimp only [Bind.bind, Except.bind] at hm
      cases hcode : FrameType.from_u32 v with
      | none => rw [hcode] at hm; simp at hm
      | some t2 =>
        rw [hcode] at hm
        simp only [pure, Except.pure, Except.ok.injEq, Prod.mk.injEq] at hm
        exact ⟨congrArg some hm.1, hm.2.symm⟩

/-- A blending context with no extra channels over a 128×128 canvas. -/
def bns_w : BlendingInfoNonserialized :=
  { num_extra_channels := 0, have_crop := false, x0 := 0, y0 := 0,
    width := 0, height := 0, img_width := 128, img_height := 128 }

/-- Witness for C7: the blending-mode code 5 (selector 3, then raw bits of
value 2) maps to no variant, so decoding the blending-info record fails with
`InvalidTag`. -/
theorem c7_invalid_tag_rejection_witness :
    BlendingInfo.read bns_w [true, true, false, true] 0 = .error .InvalidTag :=
  (c7_invalid_tag_rejection.1 [true, true, false, true] 0 5 4 (by decide)).1
    (by decide) bns_w

/-- C8: a decoded frame header without a crop has a zero crop rectangle, and
its derived TOC entry count is exactly 2 whatever the image dimensions, pass
count, subsampling or group-size shift. -/
theorem c8_no_crop_two_entries (ns : FrameHeaderNonserialized) (s : List Bool) (p : Nat)
    (h : FrameHeader) (p' : Nat) (hdec : FrameHeader.read ns s p = .ok (h, p'))
    (hc : h.have_crop = false) :
    h.x0 = 0 ∧ h.y0 = 0 ∧ h.width = 0 ∧ h.height = 0 ∧ h.num_toc_entries = some 2 := by
  obtain ⟨h1, h2, h3, -, -, -, hcrop⟩ := FrameHeader.read_ranges hdec
  obtain ⟨hx, hy, hw, hh⟩ := hcrop hc
  refine ⟨hx, hy, hw, hh, ?_⟩
  rw [num_toc_entries_eq h1 h2 h3, FrameHeader.num_toc_entries_value, hw, hh]
  norm_num [div_ceil]

/-- Witness for C8 at the all-default frame header. -/
theorem c8_no_crop_two_entries_witness :
    (FrameHeader.default_header ctx_c1).x0 = 0 ∧
    (FrameHeader.default_header ctx_c1).y0 = 0 ∧
    (FrameHeader.default_header ctx_c1).width = 0 ∧
    (FrameHeader.default_header ctx_c1).height = 0 ∧
    (FrameHeader.default_header ctx_c1).num_toc_entries = some 2 :=
  c8_no_crop_two_entries ctx_c1 stream_default 0 (FrameHeader.default_header ctx_c1) 8
    rfl rfl

/-- C10: every decoded frame header has its three `jpeg_upsampling` entries
strictly below 4, so the `H_SHIFT`/`V_SHIFT` table lookups of
`num_toc_entries` are in bounds and the derived count is defined. -/
theorem c10_jpeg_upsampling_in_bounds (ns : FrameHeaderNonserialized) (s : List Bool)
    (p : Nat) (h : FrameHeader) (p' : Nat)
    (hdec : FrameHeader.read ns s p = .ok (h, p')) :
    h.jpeg_upsampling.1 < 4 ∧ h.jpeg_upsampling.2.1 < 4 ∧ h.jpeg_upsampling.2.2 < 4 ∧
    (h.num_toc_entries).isSome = true := by
  obtain ⟨h1, h2, h3, -⟩ := FrameHeader.read_ranges hdec
  refine ⟨h1, h2, h3, ?_⟩
  rw [num_toc_entries_eq h1 h2 h3]
  rfl

/-- Witness for C10 at the decoded header `hdr_c1`. -/
theorem c10_jpeg_upsampling_in_bounds_witness :
    hdr_c1.jpeg_upsampling.1 < 4 ∧ hdr_c1.jpeg_upsampling.2.1 < 4 ∧
    hdr_c1.jpeg_upsampling.2.2 < 4 ∧ (hdr_c1.num_toc_entries).isSome = true :=
  c10_jpeg_upsampling_in_bounds ctx_c1 stream_c1 0 hdr_c1 72 rfl
